import Mathlib

/-!
Verification development for the shopping-agent browser-automation tool set
(`shopping_tools.py`): the visual search renderer, the redirect resolver,
the navigator with its shared browser session, and the add-to-cart clicker.

External effects (the playwright driver, the search API, the network) are
modelled by explicit oracle environments: each record field fixes the outcome
of one external call (whether it raises, and what value it yields).  The
Python functions then become pure Lean functions of the oracle and the shared
state, returning `Except String α` (an `Except.error` models an exception
propagating out of the function) together with a trace of the externally
visible events they performed.
-/

set_option autoImplicit false

/-- Single-quote character, used when building HTML / selector strings. -/
def apos : String := String.singleton (Char.ofNat 39)

/-- Value of a hexadecimal digit character, if it is one (model of the
hex-digit table used by `urllib.parse.unquote`). -/
def hexVal? (c : Char) : Option Nat :=
  if 48 ≤ c.toNat ∧ c.toNat ≤ 57 then some (c.toNat - 48)
  else if 97 ≤ c.toNat ∧ c.toNat ≤ 102 then some (c.toNat - 87)
  else if 65 ≤ c.toNat ∧ c.toNat ≤ 70 then some (c.toNat - 55)
  else none

/-- Percent-decoding on character lists: each valid `%XX` escape becomes the
character of the byte value `XX`; an invalid escape keeps the `%` literally.
Byte-level model of `urllib.parse.unquote`: multi-byte UTF-8 sequences are
left as individual byte-valued characters, which preserves all ASCII
content (the only content the claims inspect). -/
def unquoteChars : List Char → List Char
  | [] => []
  | '%' :: a :: b :: rest =>
    match hexVal? a, hexVal? b with
    | some x, some y => Char.ofNat (16 * x + y) :: unquoteChars rest
    | _, _ => '%' :: unquoteChars (a :: b :: rest)
  | c :: rest => c :: unquoteChars rest

/-- Model of `urllib.parse.unquote`. -/
def pyUnquote (s : String) : String := String.mk (unquoteChars s.data)

/-- Model of `urllib.parse.unquote_plus`: `+` becomes a space, then unquote. -/
def pyUnquotePlus (s : String) : String :=
  String.mk (unquoteChars (s.data.map (fun c => if c = '+' then ' ' else c)))

/-- Does the character list start with the given pattern? -/
def charsStarts : List Char → List Char → Bool
  | [], _ => true
  | _ :: _, [] => false
  | p :: ps, c :: cs => p = c && charsStarts ps cs

/-- Does the character list contain the pattern as a contiguous run? -/
def charsIn (pat : List Char) : List Char → Bool
  | [] => pat.isEmpty
  | c :: rest => charsStarts pat (c :: rest) || charsIn pat rest

/-- Model of the Python substring test `pat in s`. -/
def strIn (pat s : String) : Bool := charsIn pat.data s.data

/-- Characters kept verbatim by `urllib.parse.quote` with the default
`safe='/'`: ASCII alphanumerics, `_.-~` and `/`. -/
def quoteSafe (c : Char) : Bool :=
  c.isAlpha || c.isDigit || c = '_' || c = '.' || c = '-' || c = '~' || c = '/'

/-- Uppercase hexadecimal digit for a value below 16. -/
def hexDigit (n : Nat) : Char :=
  if n < 10 then Char.ofNat (48 + n) else Char.ofNat (55 + n)

/-- Two-digit uppercase hexadecimal rendering of a byte. -/
def hexByte (b : Nat) : String :=
  String.mk [hexDigit (b / 16 % 16), hexDigit (b % 16)]

/-- UTF-8 bytes of a character (standard encoding of its code point). -/
def utf8Bytes (c : Char) : List Nat :=
  let n := c.toNat
  if n < 128 then [n]
  else if n < 2048 then [192 + n / 64, 128 + n % 64]
  else if n < 65536 then [224 + n / 4096, 128 + n / 64 % 64, 128 + n % 64]
  else [240 + n / 262144, 128 + n / 4096 % 64, 128 + n / 64 % 64, 128 + n % 64]

/-- Model of `urllib.parse.quote` (default `safe='/'`). -/
def pyQuote (s : String) : String :=
  String.join (s.data.map (fun c =>
    if quoteSafe c then String.singleton c
    else String.join ((utf8Bytes c).map (fun b => "%" ++ hexByte b))))

/-- Characters before the first occurrence of `c`. -/
def takeUntilChar (c : Char) : List Char → List Char
  | [] => []
  | x :: xs => if x = c then [] else x :: takeUntilChar c xs

/-- Characters after the first occurrence of `c`, or `none` if `c` is absent. -/
def afterChar (c : Char) : List Char → Option (List Char)
  | [] => none
  | x :: xs => if x = c then some xs else afterChar c xs

/-- Query component of a URL, as computed by `urllib.parse.urlparse`: the part
after the first `?` of the text preceding the first `#` (empty if no `?`). -/
def urlQuery (raw : String) : String :=
  match afterChar '?' (takeUntilChar '#' raw.data) with
  | some rest => String.mk rest
  | none => ""

/-- Split a character list on every occurrence of `c`. -/
def splitOnChar (c : Char) : List Char → List (List Char)
  | [] => [[]]
  | x :: xs =>
    if x = c then [] :: splitOnChar c xs
    else
      match splitOnChar c xs with
      | [] => [[x]]
      | f :: fs => (x :: f) :: fs

/-- One `name=value` field of a query string, decoded as
`urllib.parse.parse_qsl` does with default settings: a field with no `=` or
with an empty raw value is dropped; name and value are plus-and-percent
decoded. -/
def qsField (field : List Char) : Option (String × String) :=
  match afterChar '=' field with
  | none => none
  | some value =>
    if value = [] then none
    else some (pyUnquotePlus (String.mk (takeUntilChar '=' field)),
               pyUnquotePlus (String.mk value))

/-- First decoded value of the parameter `q` among the fields, in order:
model of `urllib.parse.parse_qs(query).get("q", [None])[0]`. -/
def firstQ : List (List Char) → Option String
  | [] => none
  | f :: fs =>
    match qsField f with
    | some (n, v) => if n = "q" then some v else firstQ fs
    | none => firstQ fs

/-- Model of `parse_qs(query).get("q", [None])[0]` on a raw query string. -/
def parseQsFirstQ (query : String) : Option String :=
  firstQ (splitOnChar '&' query.data)

/-- Python truthiness of an optional string (`None` and `""` are falsy). -/
def pyTruthy : Option String → Bool
  | none => false
  | some s => !(s = "")

-- ===========================================================
-- TOOL 1: VisualSearchTool (shopping_tools.py lines 18-87)
-- ===========================================================

/-- One entry of the search API's `shopping_results` list; `none` models a
missing key. -/
structure SearchItem where
  thumbnail : Option String
  title : Option String
  price : Option String
  source : Option String
  link : Option String
  product_link : Option String
  deriving DecidableEq, Repr

/-- The usable link of an item: `p.get("link") or p.get("product_link")`,
normalised to `none` when the result is falsy (the `if not raw_link` guard). -/
def rawLink (p : SearchItem) : Option String :=
  let r := if pyTruthy p.link then p.link else p.product_link
  if pyTruthy r then r else none

/-- The HTML card emitted for an item whose usable link is `rawL`
(the f-string template of the loop body). -/
def cardOf (p : SearchItem) (rawL : String) : String :=
  let img := p.thumbnail.getD ""
  let title := p.title.getD "Unknown"
  let price := p.price.getD "Check Site"
  let source := p.source.getD "Web"
  let encoded := pyQuote rawL
  "\n            <div class=\"card\">\n                <div class=\"image-container\"><img src=\""
    ++ img ++ "\" alt=\"" ++ title
    ++ "\"></div>\n                <div class=\"meta\">\n                    <div class=\"title\">"
    ++ title ++ "</div>\n                    <div class=\"price\">" ++ price
    ++ "</div>\n                    <div class=\"store\">" ++ source
    ++ "</div>\n                    <button class=\"buy-btn\" onclick=\"triggerAutoBuy("
    ++ apos ++ encoded ++ apos
    ++ ")\">\n                        Auto-Buy 🤖\n                    </button>\n                </div>\n            </div>\n            "

/-- The card-generation loop: `count` starts at 0, the loop stops once
`count >= 6`, items whose `raw_link` is falsy are skipped (`continue`), and
each kept item increments `count` and appends one card. -/
def renderCards : Nat → List SearchItem → List String
  | _, [] => []
  | count, p :: rest =>
    if 6 ≤ count then []
    else
      match rawLink p with
      | some l => cardOf p l :: renderCards (count + 1) rest
      | none => renderCards count rest

/-- Opening tag of the grid container. -/
def gridOpen : String := "<div class=" ++ apos ++ "grid-container" ++ apos ++ ">"

/-- The full HTML fragment built from the rendered cards. -/
def gridWrap (cards : List String) : String :=
  gridOpen ++ String.join cards ++ "</div>"

/-- Oracle for one `VisualSearchTool.execute` call: the `SERPAPI_KEY`
environment variable and the outcome of the `GoogleSearch(...).get_dict()`
call (`Except.error` models the call raising). -/
structure SearchEnv where
  apiKey : Option String
  searchOutcome : Except String (List SearchItem)

/-- Model of `VisualSearchTool.execute`.  `Except.error` in the result would
model an exception escaping the tool; every path of this tool returns
`Except.ok` with a result string. -/
def VisualSearchTool_execute (env : SearchEnv) : Except String String :=
  if !pyTruthy env.apiKey then Except.ok "<div>Error: SERPAPI_KEY missing.</div>"
  else
    match env.searchOutcome with
    | Except.error e => Except.ok ("Search Error: " ++ e)
    | Except.ok results =>
      if results.isEmpty then Except.ok "No products found."
      else Except.ok (gridWrap (renderCards 0 results))

-- ===========================================================
-- TOOL 2: NavigateTool and its headless resolver
-- (shopping_tools.py lines 92-173)
-- ===========================================================

/-- Externally visible events of one `resolve_url_headless` call. -/
inductive REvent where
  | launchHeadless
  | newPageHeadless
  | gotoHeadless
  | anchorProbe
  | offerClick
  /-- The launched browser was closed — by the `finally` clause's
  `browser.close()` on paths that reach the `try` statement, or by the
  `async_playwright` context-manager teardown (stopping the driver closes
  the browsers it launched) on the pre-`try` page-creation failure path. -/
  | closeBrowser
  /-- The `async with async_playwright() as p` context exited, stopping the
  driver; this happens on every exit path, normal or unwinding. -/
  | stopDriver
  deriving DecidableEq, Repr

/-- Oracle for one `resolve_url_headless` call: one field per external
playwright interaction, fixing whether it raises and what it yields. -/
structure ResolveEnv where
  /-- `p.chromium.launch(headless=True)` succeeds. -/
  launchOk : Bool
  /-- `browser.new_page(user_agent=...)` succeeds. -/
  newPageOk : Bool
  /-- `page.goto(dirty_url, timeout=30000, ...)` succeeds. -/
  gotoOk : Bool
  /-- `page.url` after a successful goto (redirects may change it). -/
  pageUrl : String
  /-- `link.count()` succeeds. -/
  countOk : Bool
  /-- Value returned by `link.count()`. -/
  countVal : Nat
  /-- `link.get_attribute("href")` succeeds. -/
  attrOk : Bool
  /-- Value returned by `get_attribute` (`none` models Python `None`). -/
  attrVal : Option String
  /-- `page.locator(".sh-osd__offer-row").first.click()` succeeds. -/
  clickOk : Bool
  /-- `new_page_info.value` yields the new tab. -/
  expectOk : Bool
  /-- `new_page.wait_for_load_state(...)` succeeds. -/
  waitOk : Bool
  /-- `new_page.url` of the tab opened by the offer-row click. -/
  newTabUrl : String
  deriving DecidableEq, Repr

/-- The anchor-href fast path (`a[href*='url?q=']`): `some clean` means
`return clean` fires; `none` means the fast path falls through, either
because the inner `try` raised (swallowed by `except: pass`), the locator
count was zero, `get_attribute` returned `None` (`urlparse(None)` raises a
`TypeError` caught by the same `pass`), or the parsed `q` value was falsy. -/
def fastPathResult (env : ResolveEnv) : Option String :=
  if !env.countOk then none
  else if env.countVal = 0 then none
  else if !env.attrOk then none
  else
    match env.attrVal with
    | none => none
    | some raw =>
      match parseQsFirstQ (urlQuery raw) with
      | none => none
      | some clean => if clean = "" then none else some clean

/-- Body of the `try` block of `resolve_url_headless`: `some u` is a normal
`return u`, `none` means an exception was raised inside the `try` (to be
caught by the bare `except`, which returns the original URL). -/
def resolveTry (env : ResolveEnv) : Option String × List REvent :=
  if !env.gotoOk then (none, [REvent.gotoHeadless])
  else if strIn "google.com" env.pageUrl then
    match fastPathResult env with
    | some clean => (some clean, [REvent.gotoHeadless, REvent.anchorProbe])
    | none =>
      if !env.clickOk then (none, [REvent.gotoHeadless, REvent.anchorProbe, REvent.offerClick])
      else if !env.expectOk then (none, [REvent.gotoHeadless, REvent.anchorProbe, REvent.offerClick])
      else if !env.waitOk then (none, [REvent.gotoHeadless, REvent.anchorProbe, REvent.offerClick])
      else (some env.newTabUrl, [REvent.gotoHeadless, REvent.anchorProbe, REvent.offerClick])
  else (some env.pageUrl, [REvent.gotoHeadless])

/-- Model of `NavigateTool.resolve_url_headless`.  The browser launch and the
page creation happen before the `try` statement, so a failure there is an
uncaught exception (`Except.error`).  Inside the `try`, any exception is
caught by the bare `except`, which returns the original `dirty_url`, and the
`finally` clause closes the browser on every such path, including the normal
returns.  The whole body runs inside `async with async_playwright() as p`,
whose exit stops the driver on every path — normal return or exception
unwinding — and stopping the driver closes any browser it launched; so even
on the page-creation failure path, where the `finally` never runs, the
launched browser is closed by the teardown while the exception propagates. -/
def resolve_url_headless (env : ResolveEnv) (dirty_url : String) :
    Except String String × List REvent :=
  if !env.launchOk then (Except.error "resolver launch failed", [REvent.stopDriver])
  else if !env.newPageOk then
    (Except.error "resolver new_page failed",
      [REvent.launchHeadless, REvent.closeBrowser, REvent.stopDriver])
  else
    match resolveTry env with
    | (some u, evs) =>
      (Except.ok u,
        REvent.launchHeadless :: REvent.newPageHeadless :: evs
          ++ [REvent.closeBrowser, REvent.stopDriver])
    | (none, evs) =>
      (Except.ok dirty_url,
        REvent.launchHeadless :: REvent.newPageHeadless :: evs
          ++ [REvent.closeBrowser, REvent.stopDriver])

/-- The process-wide `SHARED_BROWSER_STATE` dict: handles are modelled as
numeric identifiers, `none` is Python `None`. -/
structure BrowserState where
  playwright : Option Nat
  browser : Option Nat
  page : Option Nat
  deriving DecidableEq, Repr

/-- The initial value of `SHARED_BROWSER_STATE` (all three handles `None`). -/
def initialBrowserState : BrowserState := ⟨none, none, none⟩

/-- Externally visible events of one `NavigateTool.execute` call. -/
inductive NEvent where
  /-- `resolve_url_headless` was invoked on the decoded URL. -/
  | resolveCalled (url : String)
  /-- `async_playwright().start()` completed. -/
  | startDriver
  /-- `p.chromium.launch(headless=False, ...)` created the visible browser. -/
  | launchVisible
  /-- `browser.new_context(...)` created the context. -/
  | newContext
  /-- `context.new_page()` created the page. -/
  | newPageVisible
  /-- `page.goto(clean_url, timeout=60000, ...)` was attempted on page `pg`. -/
  | gotoAttempt (pg : Nat) (url : String)
  deriving DecidableEq, Repr

/-- Oracle for one `NavigateTool.execute` call: the resolver's oracle plus
one field per visible-browser interaction. -/
structure NavEnv where
  rEnv : ResolveEnv
  /-- `async_playwright().start()` succeeds. -/
  startOk : Bool
  /-- `p.chromium.launch(headless=False, slow_mo=1000, ...)` succeeds. -/
  launchOk : Bool
  /-- `browser.new_context(viewport=...)` succeeds. -/
  contextOk : Bool
  /-- `context.new_page()` succeeds. -/
  pageOk : Bool
  /-- `page.goto(clean_url, timeout=60000, ...)` succeeds. -/
  gotoOk : Bool
  /-- Message of the exception raised by a failed goto. -/
  gotoErr : String
  deriving Repr

/-- Step 1 of `NavigateTool.execute`: if the decoded URL contains
`"google.com"`, call the headless resolver (whose exceptions, raised outside
any `try` of `execute`, propagate); otherwise use the decoded URL as-is. -/
def navClean (env : NavEnv) (decoded : String) : Except String String × List NEvent :=
  if strIn "google.com" decoded then
    match (resolve_url_headless env.rEnv decoded).1 with
    | Except.ok c => (Except.ok c, [NEvent.resolveCalled decoded])
    | Except.error e => (Except.error e, [NEvent.resolveCalled decoded])
  else (Except.ok decoded, [])

/-- Step 2 of `NavigateTool.execute`: lazy initialization of
`SHARED_BROWSER_STATE`, guarded by `if SHARED_BROWSER_STATE["playwright"] is
None`.  The code stores the playwright handle before launching the browser
and the browser handle before creating the context/page, so a failure partway
(none of this is inside a `try`, hence `Except.error`) leaves a partially
filled state behind. -/
def navInit (env : NavEnv) (st : BrowserState) :
    Except String Unit × BrowserState × List NEvent :=
  if st.playwright = none then
    if !env.startOk then (Except.error "playwright start failed", st, [])
    else
      let st1 : BrowserState := { st with playwright := some 0 }
      if !env.launchOk then
        (Except.error "visible browser launch failed", st1, [NEvent.startDriver])
      else
        let st2 : BrowserState := { st1 with browser := some 1 }
        if !env.contextOk then
          (Except.error "new_context failed", st2,
            [NEvent.startDriver, NEvent.launchVisible])
        else if !env.pageOk then
          (Except.error "new_page failed", st2,
            [NEvent.startDriver, NEvent.launchVisible, NEvent.newContext])
        else
          (Except.ok (), { st2 with page := some 2 },
            [NEvent.startDriver, NEvent.launchVisible, NEvent.newContext,
             NEvent.newPageVisible])
  else (Except.ok (), st, [])

/-- Message of the `AttributeError` raised when `page` is `None` and the code
evaluates `page.goto` inside the `try` block. -/
def noneGotoMsg : String :=
  apos ++ "NoneType" ++ apos ++ " object has no attribute " ++ apos ++ "goto" ++ apos

/-- Step 3 of `NavigateTool.execute`: the `try` block around `page.goto`.
If the stored page is `None`, evaluating `page.goto` raises an
`AttributeError` that the same `try` catches, yielding a navigation-error
string without any goto attempt.  The cookie-banner click is wrapped in its
own `try ... except: pass` and cannot change the outcome, so it carries no
oracle field. -/
def navGoto (env : NavEnv) (st : BrowserState) (clean : String) : String × List NEvent :=
  match st.page with
  | none => ("Navigation Error: " ++ noneGotoMsg, [])
  | some pg =>
    if env.gotoOk then
      ("✅ Browser Opened. Navigated to: " ++ clean, [NEvent.gotoAttempt pg clean])
    else
      ("Navigation Error: " ++ env.gotoErr, [NEvent.gotoAttempt pg clean])

/-- Model of `NavigateTool.execute`: decode the URL, resolve it if it looks
like a Google link, lazily initialize the shared browser state, then drive
the shared page.  `Except.error` models an exception escaping the tool
(possible only in the resolve and initialization phases, which are outside
the `try`). -/
def NavigateTool_execute (env : NavEnv) (st : BrowserState) (url : String) :
    Except String String × BrowserState × List NEvent :=
  let decoded := pyUnquote url
  match navClean env decoded with
  | (Except.error e, evs) => (Except.error e, st, evs)
  | (Except.ok clean, evs) =>
    match navInit env st with
    | (Except.error e, st2, evs2) => (Except.error e, st2, evs ++ evs2)
    | (Except.ok _, st2, evs2) =>
      let r := navGoto env st2 clean
      (Except.ok r.1, st2, evs ++ evs2 ++ r.2)

-- ===========================================================
-- TOOL 3: AddToCartTool (shopping_tools.py lines 178-218)
-- ===========================================================

/-- Outcome of one `page.locator(sel).first.is_visible()` call. -/
inductive VisOutcome where
  /-- The call raised an exception with this message. -/
  | raised (msg : String)
  /-- The call returned `True`. -/
  | vis
  /-- The call returned `False`. -/
  | notVis
  deriving DecidableEq, Repr

/-- Externally visible events of one `AddToCartTool.execute` call. -/
inductive CEvent where
  /-- Visibility of this selector's first match was checked. -/
  | checkVisible (sel : String)
  /-- This selector's first match was force-clicked. -/
  | clickSel (sel : String)
  deriving DecidableEq, Repr

/-- Oracle for one `AddToCartTool.execute` call. -/
structure CartEnv where
  /-- Outcome of the visibility check, per selector. -/
  visibility : String → VisOutcome
  /-- `some msg` if `locator.click(force=True)` raises with message `msg`. -/
  clickFail : Option String

/-- The fixed, priority-ordered selector list of `AddToCartTool.execute`. -/
def selectors : List String :=
  ["#add-to-cart-button", "#add-to-cart-button-ubb",
   "[data-automation-id=" ++ apos ++ "add-to-cart" ++ apos ++ "]",
   "button[name=" ++ apos ++ "add" ++ apos ++ "]",
   "button:has-text(" ++ apos ++ "Add to Cart" ++ apos ++ ")",
   "button:has-text(" ++ apos ++ "Add to Bag" ++ apos ++ ")",
   "form[action*=" ++ apos ++ "/cart/add" ++ apos ++ "] button",
   ".add-to-cart"]

/-- The sixth selector of the list, `button:has-text('Add to Bag')`. -/
def addToBagSel : String := "button:has-text(" ++ apos ++ "Add to Bag" ++ apos ++ ")"

/-- Result of the selector loop of `AddToCartTool.execute`. -/
inductive LoopRes where
  /-- A visible selector was found and force-clicked (`clicked = True; break`). -/
  | clickedOk (sel : String)
  /-- The list was exhausted with no visible match (`clicked` stays `False`). -/
  | exhausted
  /-- An `is_visible` or `click` call raised, to be caught by the outer
  `except` of `execute`. -/
  | raised (msg : String)
  deriving DecidableEq, Repr

/-- The `for selector in selectors` loop: check visibility in order, on the
first visible match force-click and stop. -/
def cartLoop (env : CartEnv) : List String → LoopRes × List CEvent
  | [] => (LoopRes.exhausted, [])
  | s :: rest =>
    match env.visibility s with
    | VisOutcome.raised m => (LoopRes.raised m, [CEvent.checkVisible s])
    | VisOutcome.vis =>
      match env.clickFail with
      | some m => (LoopRes.raised m, [CEvent.checkVisible s, CEvent.clickSel s])
      | none => (LoopRes.clickedOk s, [CEvent.checkVisible s, CEvent.clickSel s])
    | VisOutcome.notVis =>
      let r := cartLoop env rest
      (r.1, CEvent.checkVisible s :: r.2)

/-- The failure string returned when no selector matched a visible element. -/
def cartFailMsg : String :=
  "❌ FAILED: Could not find " ++ apos ++ "Add to Cart" ++ apos ++ " button."

/-- Model of `AddToCartTool.execute`: read the shared page handle; if it is
`None` return the explicit no-browser error; otherwise run the selector loop
inside a `try` whose `except` converts any raised fault into a
`Click Error: ...` string.  The tool never writes to the shared state and
never lets an exception escape, so the result is always `Except.ok`. -/
def AddToCartTool_execute (env : CartEnv) (st : BrowserState) :
    Except String String × BrowserState × List CEvent :=
  match st.page with
  | none => (Except.ok "Error: No browser open.", st, [])
  | some _ =>
    match cartLoop env selectors with
    | (LoopRes.clickedOk _, evs) => (Except.ok "Success: Item added to cart.", st, evs)
    | (LoopRes.exhausted, evs) => (Except.ok cartFailMsg, st, evs)
    | (LoopRes.raised m, evs) => (Except.ok ("Click Error: " ++ m), st, evs)

-- ===========================================================
-- Helper predicates and lemmas
-- ===========================================================

/-- The init-phase events of a `NavigateTool.execute` call. -/
def isInitEvent : NEvent → Bool
  | NEvent.startDriver => true
  | NEvent.launchVisible => true
  | NEvent.newContext => true
  | NEvent.newPageVisible => true
  | _ => false

/-- Number of visible-browser launches recorded in a trace. -/
def countLaunch (evs : List NEvent) : Nat :=
  (evs.filter (fun e => e = NEvent.launchVisible)).length

/-- The visibility oracle reports a visible first match for this selector. -/
def visB (env : CartEnv) (s : String) : Bool :=
  env.visibility s = VisOutcome.vis

lemma renderCards_length (items : List SearchItem) :
    ∀ c, (renderCards c items).length
      = min (6 - c) ((items.filter (fun p => (rawLink p).isSome)).length) := by
  induction items with
  | nil => intro c; simp [renderCards]
  | cons p rest ih =>
    intro c
    by_cases h6 : 6 ≤ c
    · have hz : 6 - c = 0 := Nat.sub_eq_zero_of_le h6
      simp [renderCards, h6, hz]
    · cases hl : rawLink p with
      | some l =>
        simp [renderCards, h6, hl, List.filter_cons, ih (c + 1)]
        omega
      | none =>
        simp [renderCards, h6, hl, List.filter_cons, ih c]

lemma renderCards_mem (card : String) (items : List SearchItem) :
    ∀ c, card ∈ renderCards c items →
      ∃ p l, p ∈ items ∧ rawLink p = some l ∧ card = cardOf p l := by
  induction items with
  | nil => intro c h; simp [renderCards] at h
  | cons p rest ih =>
    intro c h
    by_cases h6 : 6 ≤ c
    · simp [renderCards, h6] at h
    · cases hl : rawLink p with
      | some l =>
        simp [renderCards, h6, hl] at h
        rcases h with h | h
        · exact ⟨p, l, List.mem_cons_self p rest, hl, h⟩
        · rcases ih (c + 1) h with ⟨q, m, hq, hm, hc⟩
          exact ⟨q, m, List.mem_cons_of_mem p hq, hm, hc⟩
      | none =>
        simp [renderCards, h6, hl] at h
        rcases ih c h with ⟨q, m, hq, hm, hc⟩
        exact ⟨q, m, List.mem_cons_of_mem p hq, hm, hc⟩

lemma resolve_safe_ok (env : ResolveEnv) (dirty : String)
    (hL : env.launchOk = true) (hP : env.newPageOk = true) :
    ∃ u, (resolve_url_headless env dirty).1 = Except.ok u := by
  rcases h : resolveTry env with ⟨o, evs⟩
  cases o with
  | none => exact ⟨dirty, by simp [resolve_url_headless, hL, hP, h]⟩
  | some u => exact ⟨u, by simp [resolve_url_headless, hL, hP, h]⟩

lemma resolve_close (env : ResolveEnv) (dirty : String)
    (hL : env.launchOk = true) (hP : env.newPageOk = true) :
    REvent.closeBrowser ∈ (resolve_url_headless env dirty).2 := by
  rcases h : resolveTry env with ⟨o, evs⟩
  cases o <;> simp [resolve_url_headless, hL, hP, h]

lemma resolve_try_none (env : ResolveEnv) (dirty : String)
    (hL : env.launchOk = true) (hP : env.newPageOk = true)
    (ht : (resolveTry env).1 = none) :
    (resolve_url_headless env dirty).1 = Except.ok dirty := by
  rcases h : resolveTry env with ⟨o, evs⟩
  rw [h] at ht
  cases o with
  | none => simp [resolve_url_headless, hL, hP, h]
  | some u => simp at ht

lemma resolve_goto_fail (env : ResolveEnv) (dirty : String)
    (hL : env.launchOk = true) (hP : env.newPageOk = true)
    (hG : env.gotoOk = false) :
    (resolve_url_headless env dirty).1 = Except.ok dirty := by
  simp [resolve_url_headless, hL, hP, resolveTry, hG]

lemma resolve_extraction_fail (env : ResolveEnv) (dirty : String)
    (hL : env.launchOk = true) (hP : env.newPageOk = true)
    (hgoogle : strIn "google.com" env.pageUrl = true)
    (hfast : fastPathResult env = none)
    (hslow : env.clickOk = false ∨ env.expectOk = false ∨ env.waitOk = false) :
    (resolve_url_headless env dirty).1 = Except.ok dirty := by
  apply resolve_try_none env dirty hL hP
  cases hg : env.gotoOk with
  | false => simp [resolveTry, hg]
  | true =>
    rcases hslow with h | h | h
    · simp [resolveTry, hg, hgoogle, hfast, h]
    · cases hc : env.clickOk <;> simp [resolveTry, hg, hgoogle, hfast, h, hc]
    · cases hc : env.clickOk <;> cases he : env.expectOk <;>
        simp [resolveTry, hg, hgoogle, hfast, h, hc, he]

lemma navClean_safe (env : NavEnv) (d : String)
    (h : strIn "google.com" d = false
       ∨ (env.rEnv.launchOk = true ∧ env.rEnv.newPageOk = true)) :
    ∃ c, (navClean env d).1 = Except.ok c := by
  by_cases hg : strIn "google.com" d
  · rcases h with h | ⟨hL, hP⟩
    · exact absurd hg (by simp [h])
    · rcases resolve_safe_ok env.rEnv d hL hP with ⟨u, hu⟩
      exact ⟨u, by simp [navClean, hg, hu]⟩
  · exact ⟨d, by simp [navClean, hg]⟩

lemma navClean_events (env : NavEnv) (d : String) :
    (navClean env d).2 = [] ∨ (navClean env d).2 = [NEvent.resolveCalled d] := by
  unfold navClean
  by_cases h : strIn "google.com" d
  · rcases hr : (resolve_url_headless env.rEnv d).1 with e | c <;> simp [h, hr]
  · simp [h]

lemma navClean_pair (env : NavEnv) (d : String) :
    navClean env d = ((navClean env d).1, (navClean env d).2) := rfl

lemma navInit_skip (env : NavEnv) (st : BrowserState) (k : Nat)
    (h : st.playwright = some k) :
    navInit env st = (Except.ok (), st, []) := by
  simp [navInit, h]

lemma navInit_fresh (env : NavEnv) (st : BrowserState) (hpw : st.playwright = none)
    (h : env.startOk = true ∧ env.launchOk = true
       ∧ env.contextOk = true ∧ env.pageOk = true) :
    navInit env st
      = (Except.ok (), ⟨some 0, some 1, some 2⟩,
         [NEvent.startDriver, NEvent.launchVisible, NEvent.newContext,
          NEvent.newPageVisible]) := by
  obtain ⟨h1, h2, h3, h4⟩ := h
  simp [navInit, hpw, h1, h2, h3, h4]

lemma navInit_events (env : NavEnv) (st : BrowserState) :
    ∀ e ∈ (navInit env st).2.2, isInitEvent e = true := by
  intro e he
  by_cases hpw : st.playwright = none
  · cases h1 : env.startOk with
    | false => simp [navInit, hpw, h1] at he
    | true =>
      cases h2 : env.launchOk with
      | false =>
        simp [navInit, hpw, h1, h2] at he
        subst he; rfl
      | true =>
        cases h3 : env.contextOk with
        | false =>
          simp [navInit, hpw, h1, h2, h3] at he
          rcases he with rfl | rfl <;> rfl
        | true =>
          cases h4 : env.pageOk with
          | false =>
            simp [navInit, hpw, h1, h2, h3, h4] at he
            rcases he with rfl | rfl | rfl <;> rfl
          | true =>
            simp [navInit, hpw, h1, h2, h3, h4] at he
            rcases he with rfl | rfl | rfl | rfl <;> rfl
  · simp [navInit, hpw] at he

lemma navGoto_events (env : NavEnv) (st : BrowserState) (c : String) :
    ∀ e ∈ (navGoto env st c).2, ∃ pg, st.page = some pg ∧ e = NEvent.gotoAttempt pg c := by
  intro e he
  unfold navGoto at he
  cases hp : st.page with
  | none => simp [hp] at he
  | some pg =>
    refine ⟨pg, rfl, ?_⟩
    by_cases hg : env.gotoOk <;> simp [hp, hg] at he <;> exact he

lemma nav_no_reinit (env : NavEnv) (st : BrowserState) (url : String) (k : Nat)
    (h : st.playwright = some k) :
    (NavigateTool_execute env st url).2.1 = st
    ∧ (∀ e ∈ (NavigateTool_execute env st url).2.2, isInitEvent e = false)
    ∧ (∀ pg u, NEvent.gotoAttempt pg u ∈ (NavigateTool_execute env st url).2.2 →
        st.page = some pg) := by
  rcases hc : navClean env (pyUnquote url) with ⟨r, evs⟩
  have hevs : evs = [] ∨ evs = [NEvent.resolveCalled (pyUnquote url)] := by
    have := navClean_events env (pyUnquote url)
    rw [hc] at this; exact this
  cases r with
  | error e =>
    have hx : NavigateTool_execute env st url = (Except.error e, st, evs) := by
      simp [NavigateTool_execute, hc]
    refine ⟨by simp [hx], ?_, ?_⟩
    · intro ev hev
      rw [hx] at hev
      rcases hevs with rfl | rfl
      · simp at hev
      · simp at hev; subst hev; rfl
    · intro pg u hev
      rw [hx] at hev
      rcases hevs with rfl | rfl <;> simp at hev
  | ok c =>
    have hi := navInit_skip env st k h
    have hx : NavigateTool_execute env st url
        = (Except.ok (navGoto env st c).1, st, evs ++ [] ++ (navGoto env st c).2) := by
      simp [NavigateTool_execute, hc, hi]
    refine ⟨by simp [hx], ?_, ?_⟩
    · intro ev hev
      rw [hx] at hev
      simp at hev
      rcases hev with hev | hev
      · rcases hevs with rfl | rfl
        · simp at hev
        · simp at hev; subst hev; rfl
      · rcases navGoto_events env st c ev hev with ⟨pg, _, rfl⟩; rfl
    · intro pg u hev
      rw [hx] at hev
      simp at hev
      rcases hev with hev | hev
      · rcases hevs with rfl | rfl <;> simp at hev
      · rcases navGoto_events env st c _ hev with ⟨pg2, hpg2, heq⟩
        cases heq
        exact hpg2

lemma cartLoop_eq (env : CartEnv)
    (hnr : ∀ s m, env.visibility s ≠ VisOutcome.raised m)
    (hc : env.clickFail = none) :
    ∀ sels, cartLoop env sels =
      match sels.find? (fun s => visB env s) with
      | some sel => (LoopRes.clickedOk sel,
          ((sels.takeWhile (fun s => !visB env s)).map CEvent.checkVisible)
            ++ [CEvent.checkVisible sel, CEvent.clickSel sel])
      | none => (LoopRes.exhausted, sels.map CEvent.checkVisible) := by
  intro sels
  induction sels with
  | nil => simp [cartLoop]
  | cons s rest ih =>
    cases hv : env.visibility s with
    | raised m => exact absurd hv (hnr s m)
    | vis =>
      have hb : visB env s = true := by simp [visB, hv]
      rw [List.find?_cons_of_pos _ hb, List.takeWhile_cons_of_neg (by simp [hb])]
      simp [cartLoop, hv, hc]
    | notVis =>
      have hb : visB env s = false := by simp [visB, hv]
      rw [List.find?_cons_of_neg _ (by simp [hb]),
          List.takeWhile_cons_of_pos (by simp [hb])]
      cases hf : rest.find? (fun s => visB env s) with
      | some sel =>
        have := ih
        rw [hf] at this
        simp [cartLoop, hv, this]
      | none =>
        have := ih
        rw [hf] at this
        simp [cartLoop, hv, this]

lemma navClean_safe_full (env : NavEnv) (d : String)
    (h : strIn "google.com" d = false
       ∨ (env.rEnv.launchOk = true ∧ env.rEnv.newPageOk = true)) :
    ∃ c evs, navClean env d = (Except.ok c, evs)
      ∧ (evs = [] ∨ evs = [NEvent.resolveCalled d]) := by
  rcases hp : navClean env d with ⟨r, evs⟩
  have hevs : evs = [] ∨ evs = [NEvent.resolveCalled d] := by
    have := navClean_events env d
    rw [hp] at this; exact this
  cases r with
  | ok c => exact ⟨c, evs, rfl, hevs⟩
  | error e =>
    obtain ⟨c, hc⟩ := navClean_safe env d h
    rw [hp] at hc
    simp at hc

lemma countLaunch_zero (evs : List NEvent)
    (h : ∀ e ∈ evs, isInitEvent e = false) : countLaunch evs = 0 := by
  unfold countLaunch
  rw [List.length_eq_zero, List.filter_eq_nil_iff]
  intro e he
  intro heq
  have := h e he
  rw [of_decide_eq_true heq] at this
  simp [isInitEvent] at this

lemma visual_ok (env : SearchEnv) :
    ∃ s, VisualSearchTool_execute env = Except.ok s := by
  by_cases h : pyTruthy env.apiKey
  · cases ho : env.searchOutcome with
    | error e =>
      exact ⟨"Search Error: " ++ e, by simp [VisualSearchTool_execute, h, ho]⟩
    | ok results =>
      by_cases he : results.isEmpty
      · exact ⟨"No products found.", by simp [VisualSearchTool_execute, h, ho, he]⟩
      · exact ⟨gridWrap (renderCards 0 results),
          by simp [VisualSearchTool_execute, h, ho, he]⟩
  · exact ⟨"<div>Error: SERPAPI_KEY missing.</div>",
      by simp [VisualSearchTool_execute, h]⟩

lemma cart_ok (env : CartEnv) (st : BrowserState) :
    ∃ s, (AddToCartTool_execute env st).1 = Except.ok s := by
  cases hp : st.page with
  | none => exact ⟨"Error: No browser open.", by simp [AddToCartTool_execute, hp]⟩
  | some pg =>
    rcases hl : cartLoop env selectors with ⟨r, evs⟩
    cases r with
    | clickedOk sel =>
      exact ⟨"Success: Item added to cart.", by simp [AddToCartTool_execute, hp, hl]⟩
    | exhausted => exact ⟨cartFailMsg, by simp [AddToCartTool_execute, hp, hl]⟩
    | raised m =>
      exact ⟨"Click Error: " ++ m, by simp [AddToCartTool_execute, hp, hl]⟩

lemma nav_ok (env : NavEnv) (st : BrowserState) (url : String)
    (hres : strIn "google.com" (pyUnquote url) = false
          ∨ (env.rEnv.launchOk = true ∧ env.rEnv.newPageOk = true))
    (hini : st.playwright ≠ none
          ∨ (env.startOk = true ∧ env.launchOk = true
             ∧ env.contextOk = true ∧ env.pageOk = true)) :
    ∃ s, (NavigateTool_execute env st url).1 = Except.ok s := by
  obtain ⟨c, evs, hc, _⟩ := navClean_safe_full env (pyUnquote url) hres
  by_cases hpw : st.playwright = none
  · rcases hini with hini | hini
    · exact absurd hpw hini
    · exact ⟨(navGoto env ⟨some 0, some 1, some 2⟩ c).1,
        by simp [NavigateTool_execute, hc, navInit_fresh env st hpw hini]⟩
  · rcases Option.ne_none_iff_exists.mp hpw with ⟨k, hk⟩
    exact ⟨(navGoto env st c).1,
      by simp [NavigateTool_execute, hc, navInit_skip env st k hk.symm]⟩

-- ===========================================================
-- Claim theorems
-- ===========================================================

/-- Claim C4: for every search-API response, the number of cards rendered by
`VisualSearchTool.execute` is the number of result items with a usable link,
capped at 6: when at least 6 items have a usable link the fragment holds
exactly 6 cards, and when fewer than 6 do it holds exactly that many. -/
theorem c4_card_cap (items : List SearchItem) :
    (6 ≤ (items.filter (fun p => (rawLink p).isSome)).length →
      (renderCards 0 items).length = 6)
    ∧ ((items.filter (fun p => (rawLink p).isSome)).length < 6 →
      (renderCards 0 items).length
        = (items.filter (fun p => (rawLink p).isSome)).length) := by
  have h := renderCards_length items 0
  constructor
  · intro h6; rw [h]; omega
  · intro h6; rw [h]; omega

/-- A search item with the given `link` field and no `product_link`. -/
def demoItem (l : Option String) : SearchItem := ⟨none, some "T", none, none, l, none⟩

/-- Eight result items of which seven carry a usable link (the spec's
"red sneakers" scenario shape). -/
def c4Items : List SearchItem :=
  List.replicate 7 (demoItem (some "https://store.example/p")) ++ [demoItem none]

/-- Witness for C4: eight items, seven with links, yield exactly six cards. -/
theorem c4_witness : (renderCards 0 c4Items).length = 6 :=
  (c4_card_cap c4Items).1 (by decide)

/-- Claim C5: every card in the fragment rendered by
`VisualSearchTool.execute` comes from a result item with a usable link; an
item with neither a truthy `link` nor a truthy `product_link` field is never
rendered. -/
theorem c5_cards_linked (items : List SearchItem) (card : String)
    (h : card ∈ renderCards 0 items) :
    ∃ p l, p ∈ items ∧ rawLink p = some l ∧ card = cardOf p l :=
  renderCards_mem card items 0 h

/-- A fully populated search item used by the C5 witness. -/
def c5Item : SearchItem :=
  ⟨some "img", some "Shoe", some "$5", some "Store", some "https://s.example/p", none⟩

/-- Witness for C5 at a concrete rendered card. -/
theorem c5_witness :
    ∃ p l, p ∈ [c5Item] ∧ rawLink p = some l
      ∧ cardOf c5Item "https://s.example/p" = cardOf p l :=
  c5_cards_linked [c5Item] (cardOf c5Item "https://s.example/p") (by
    simp [renderCards, rawLink, pyTruthy, c5Item])

/-- Claim C8: with no page in the shared browser state,
`AddToCartTool.execute` returns the explicit no-browser error string,
performs no visibility check or click, and leaves the state unchanged. -/
theorem c8_no_browser (env : CartEnv) (st : BrowserState) (h : st.page = none) :
    AddToCartTool_execute env st = (Except.ok "Error: No browser open.", st, []) := by
  simp [AddToCartTool_execute, h]

/-- Cart oracle whose every selector is visible, for the C8 witness. -/
def c8Env : CartEnv := ⟨fun _ => VisOutcome.vis, none⟩

/-- Witness for C8 at the initial (empty) shared state. -/
theorem c8_witness :
    AddToCartTool_execute c8Env initialBrowserState
      = (Except.ok "Error: No browser open.", initialBrowserState, []) :=
  c8_no_browser c8Env initialBrowserState rfl

deriving instance DecidableEq for Except

/-- Oracle on which claim C1 fails: the headless launch succeeds but
`browser.new_page` raises. -/
def c1BadEnv : ResolveEnv :=
  ⟨true, false, true, "u", true, 0, true, none, true, true, true, "t"⟩

/-- Claim C1 counterexample: `p.chromium.launch` and `browser.new_page` sit
outside the `try` of `resolve_url_headless`, so when page creation raises,
the exception propagates to the caller instead of the input URL being
returned — refuting "never propagates an exception".  (The launched browser
is still closed on that path, by the `async_playwright` teardown rather than
by the `finally` clause.) -/
theorem c1_counterexample :
    (resolve_url_headless c1BadEnv "https://www.google.com/a").1
        = Except.error "resolver new_page failed"
    ∧ REvent.launchHeadless ∈ (resolve_url_headless c1BadEnv "https://www.google.com/a").2
    ∧ REvent.closeBrowser ∈ (resolve_url_headless c1BadEnv "https://www.google.com/a").2 := by
  decide

/-- Claim C1 (amended): provided the headless browser and its page are
created successfully, `resolve_url_headless` never propagates an exception —
it always returns some URL string, the launched browser is closed on every
exit path, and any failure raised inside the `try` block returns the
original input URL unchanged: in particular a navigation failure, and an
offer-row extraction failure (the click, the new-tab wait, or the load wait
raising after the anchor fast path fell through on a search-engine page). -/
theorem c1_resolver_no_raise (env : ResolveEnv) (dirty : String)
    (hL : env.launchOk = true) (hP : env.newPageOk = true) :
    (∃ u, (resolve_url_headless env dirty).1 = Except.ok u)
    ∧ REvent.closeBrowser ∈ (resolve_url_headless env dirty).2
    ∧ ((resolveTry env).1 = none →
        (resolve_url_headless env dirty).1 = Except.ok dirty)
    ∧ (env.gotoOk = false → (resolve_url_headless env dirty).1 = Except.ok dirty)
    ∧ (strIn "google.com" env.pageUrl = true → fastPathResult env = none →
        (env.clickOk = false ∨ env.expectOk = false ∨ env.waitOk = false) →
        (resolve_url_headless env dirty).1 = Except.ok dirty) :=
  ⟨resolve_safe_ok env dirty hL hP, resolve_close env dirty hL hP,
   fun ht => resolve_try_none env dirty hL hP ht,
   fun hG => resolve_goto_fail env dirty hL hP hG,
   fun hg hf hs => resolve_extraction_fail env dirty hL hP hg hf hs⟩

/-- Oracle for the C1 witness: browser and page come up, navigation times
out. -/
def c1WitEnv : ResolveEnv :=
  ⟨true, true, false, "u", true, 0, true, none, true, true, true, "t"⟩

/-- Oracle for the C1 witness, extraction-failure side: navigation lands on
a search-engine page, the anchor fast path finds no match, and the offer-row
click raises. -/
def c1ExtEnv : ResolveEnv :=
  ⟨true, true, true, "https://www.google.com/shopping/x", true, 0, true, none,
   false, true, true, "t"⟩

/-- Witness for C1 (amended) at a concrete failing navigation and at a
concrete failing extraction. -/
theorem c1_witness :
    REvent.closeBrowser ∈ (resolve_url_headless c1WitEnv "https://www.google.com/a").2
    ∧ (resolve_url_headless c1WitEnv "https://www.google.com/a").1
        = Except.ok "https://www.google.com/a"
    ∧ (resolve_url_headless c1ExtEnv "https://www.google.com/a").1
        = Except.ok "https://www.google.com/a" :=
  ⟨(c1_resolver_no_raise c1WitEnv "https://www.google.com/a" rfl rfl).2.1,
   (c1_resolver_no_raise c1WitEnv "https://www.google.com/a" rfl rfl).2.2.2.1 rfl,
   (c1_resolver_no_raise c1ExtEnv "https://www.google.com/a" rfl rfl).2.2.2.2
     (by decide) rfl (Or.inl rfl)⟩

/-- Oracle on which claim C6 fails: navigation away from a non-Google input
URL lands on a different final URL. -/
def c6BadEnv : ResolveEnv :=
  ⟨true, true, true, "https://shop.example/landed", true, 0, true, none,
   true, true, true, "t"⟩

/-- Claim C6 counterexample: the resolver branches on `page.url` after
navigation, not on the input URL; a non-Google input that redirects is
returned as the final page URL, not unchanged. -/
theorem c6_counterexample :
    strIn "google.com" "https://shop.example/item" = false
    ∧ (resolve_url_headless c6BadEnv "https://shop.example/item").1
        = Except.ok "https://shop.example/landed"
    ∧ (resolve_url_headless c6BadEnv "https://shop.example/item").1
        ≠ Except.ok "https://shop.example/item" := by
  decide

/-- Claim C6 (amended): when navigation succeeds and the resulting page URL
does not contain the search-engine domain, the resolver attempts neither the
anchor-href fast path nor the offer-row click slow path and returns the
page's current URL — in particular the input URL unchanged whenever
navigation leaves the URL as it was. -/
theorem c6_no_extraction (env : ResolveEnv) (dirty : String)
    (hL : env.launchOk = true) (hP : env.newPageOk = true)
    (hG : env.gotoOk = true)
    (hurl : strIn "google.com" env.pageUrl = false) :
    (resolve_url_headless env dirty).1 = Except.ok env.pageUrl
    ∧ REvent.anchorProbe ∉ (resolve_url_headless env dirty).2
    ∧ REvent.offerClick ∉ (resolve_url_headless env dirty).2
    ∧ (env.pageUrl = dirty → (resolve_url_headless env dirty).1 = Except.ok dirty) := by
  have ht : resolveTry env = (some env.pageUrl, [REvent.gotoHeadless]) := by
    simp [resolveTry, hG, hurl]
  refine ⟨?_, ?_, ?_, ?_⟩
  · simp [resolve_url_headless, hL, hP, ht]
  · simp [resolve_url_headless, hL, hP, ht]
  · simp [resolve_url_headless, hL, hP, ht]
  · intro h
    rw [← h]
    simp [resolve_url_headless, hL, hP, ht]

/-- Oracle for the C6 witness: navigating to the non-Google URL keeps the
URL unchanged. -/
def c6WitEnv : ResolveEnv :=
  ⟨true, true, true, "https://shop.example/item/42", true, 0, true, none,
   true, true, true, "t"⟩

/-- Witness for C6 (amended) at a concrete non-Google URL. -/
theorem c6_witness :
    (resolve_url_headless c6WitEnv "https://shop.example/item/42").1
        = Except.ok c6WitEnv.pageUrl
    ∧ REvent.anchorProbe ∉ (resolve_url_headless c6WitEnv "https://shop.example/item/42").2
    ∧ REvent.offerClick ∉ (resolve_url_headless c6WitEnv "https://shop.example/item/42").2
    ∧ (c6WitEnv.pageUrl = "https://shop.example/item/42" →
        (resolve_url_headless c6WitEnv "https://shop.example/item/42").1
          = Except.ok "https://shop.example/item/42") :=
  c6_no_extraction c6WitEnv "https://shop.example/item/42" rfl rfl rfl (by decide)

/-- Oracle on which claim C2 fails: `async_playwright().start()` raises
during the visible-browser initialization, which sits outside the `try` of
`NavigateTool.execute`. -/
def c2BadEnv : NavEnv :=
  ⟨⟨true, true, true, "u", true, 0, true, none, true, true, true, "t"⟩,
   false, true, true, true, true, "E"⟩

/-- Claim C2 counterexample: a fault while initializing the visible browser
session propagates across the tool boundary of `NavigateTool.execute`
instead of being converted into a result string. -/
theorem c2_counterexample :
    (NavigateTool_execute c2BadEnv initialBrowserState "https://shop.example/a").1
      = Except.error "playwright start failed" := by
  decide

/-- Claim C2 (amended): `VisualSearchTool.execute` and
`AddToCartTool.execute` convert every fault into a returned result string
for every oracle and state; `NavigateTool.execute` does so only when the
headless resolver's browser/page creation and the visible-browser
initialization do not raise (those calls sit outside its `try` and
propagate). -/
theorem c2_tool_no_raise (envV : SearchEnv) (envC : CartEnv)
    (stC : BrowserState) (envN : NavEnv) (stN : BrowserState) (url : String)
    (hres : strIn "google.com" (pyUnquote url) = false
          ∨ (envN.rEnv.launchOk = true ∧ envN.rEnv.newPageOk = true))
    (hini : stN.playwright ≠ none
          ∨ (envN.startOk = true ∧ envN.launchOk = true
             ∧ envN.contextOk = true ∧ envN.pageOk = true)) :
    (∃ s, VisualSearchTool_execute envV = Except.ok s)
    ∧ (∃ s, (AddToCartTool_execute envC stC).1 = Except.ok s)
    ∧ (∃ s, (NavigateTool_execute envN stN url).1 = Except.ok s) :=
  ⟨visual_ok envV, cart_ok envC stC, nav_ok envN stN url hres hini⟩

/-- Search oracle for the C2 witness. -/
def c2WitSearchEnv : SearchEnv := ⟨some "key", Except.error "quota"⟩

/-- Cart oracle for the C2 witness. -/
def c2WitCartEnv : CartEnv := ⟨fun _ => VisOutcome.raised "page closed", none⟩

/-- Navigation oracle for the C2 witness. -/
def c2WitNavEnv : NavEnv :=
  ⟨⟨true, true, true, "u", true, 0, true, none, true, true, true, "t"⟩,
   true, true, true, true, false, "timeout"⟩

/-- Witness for C2 (amended) at concrete faulting oracles. -/
theorem c2_witness :
    (∃ s, VisualSearchTool_execute c2WitSearchEnv = Except.ok s)
    ∧ (∃ s, (AddToCartTool_execute c2WitCartEnv initialBrowserState).1 = Except.ok s)
    ∧ (∃ s, (NavigateTool_execute c2WitNavEnv initialBrowserState
              "https://shop.example/a").1 = Except.ok s) :=
  c2_tool_no_raise c2WitSearchEnv c2WitCartEnv initialBrowserState c2WitNavEnv
    initialBrowserState "https://shop.example/a" (Or.inl (by decide))
    (Or.inr ⟨rfl, rfl, rfl, rfl⟩)

/-- Claim C3: starting from the empty shared state, a first
`NavigateTool.execute` call whose initialization succeeds launches the
visible browser exactly once and fills all three handles; a second call then
launches nothing, performs no initialization event, leaves the state
unchanged, and drives the same stored page handle. -/
theorem c3_session_reuse (env1 env2 : NavEnv) (u1 u2 : String)
    (hres : strIn "google.com" (pyUnquote u1) = false
          ∨ (env1.rEnv.launchOk = true ∧ env1.rEnv.newPageOk = true))
    (hini : env1.startOk = true ∧ env1.launchOk = true
          ∧ env1.contextOk = true ∧ env1.pageOk = true) :
    countLaunch (NavigateTool_execute env1 initialBrowserState u1).2.2 = 1
    ∧ (NavigateTool_execute env1 initialBrowserState u1).2.1
        = (⟨some 0, some 1, some 2⟩ : BrowserState)
    ∧ (NavigateTool_execute env2
          (NavigateTool_execute env1 initialBrowserState u1).2.1 u2).2.1
        = (NavigateTool_execute env1 initialBrowserState u1).2.1
    ∧ countLaunch (NavigateTool_execute env2
          (NavigateTool_execute env1 initialBrowserState u1).2.1 u2).2.2 = 0
    ∧ (∀ pg u, NEvent.gotoAttempt pg u ∈ (NavigateTool_execute env2
          (NavigateTool_execute env1 initialBrowserState u1).2.1 u2).2.2 →
        (NavigateTool_execute env1 initialBrowserState u1).2.1.page = some pg) := by
  obtain ⟨c, evs, hc, hevs⟩ := navClean_safe_full env1 (pyUnquote u1) hres
  have hinit := navInit_fresh env1 initialBrowserState rfl hini
  have hg : (navGoto env1 (⟨some 0, some 1, some 2⟩ : BrowserState) c).2
      = [NEvent.gotoAttempt 2 c] := by
    by_cases h : env1.gotoOk <;> simp [navGoto, h]
  have hx1 : NavigateTool_execute env1 initialBrowserState u1
      = (Except.ok (navGoto env1 (⟨some 0, some 1, some 2⟩ : BrowserState) c).1,
         (⟨some 0, some 1, some 2⟩ : BrowserState),
         evs ++ [NEvent.startDriver, NEvent.launchVisible, NEvent.newContext,
                 NEvent.newPageVisible]
             ++ (navGoto env1 (⟨some 0, some 1, some 2⟩ : BrowserState) c).2) := by
    simp [NavigateTool_execute, hc, hinit]
  have h1 : countLaunch (NavigateTool_execute env1 initialBrowserState u1).2.2 = 1 := by
    rw [hx1]
    rcases hevs with rfl | rfl <;>
      simp [countLaunch, List.filter_append, hg, List.filter]
  have h2 : (NavigateTool_execute env1 initialBrowserState u1).2.1
      = (⟨some 0, some 1, some 2⟩ : BrowserState) := by rw [hx1]
  obtain ⟨hs2, he2, hg2⟩ :=
    nav_no_reinit env2 (⟨some 0, some 1, some 2⟩ : BrowserState) u2 0 rfl
  refine ⟨h1, h2, ?_, ?_, ?_⟩
  · rw [h2]; exact hs2
  · rw [h2]; exact countLaunch_zero _ he2
  · intro pg u hmem
    rw [h2] at hmem ⊢
    exact hg2 pg u hmem

/-- All-success navigation oracle for the C3 witness. -/
def c3Env : NavEnv :=
  ⟨⟨true, true, true, "u", true, 0, true, none, true, true, true, "t"⟩,
   true, true, true, true, true, "E"⟩

/-- Witness for C3: two concrete sequential calls share one launch. -/
theorem c3_witness :
    countLaunch (NavigateTool_execute c3Env initialBrowserState
        "https://shop.example/a").2.2 = 1
    ∧ (NavigateTool_execute c3Env initialBrowserState "https://shop.example/a").2.1
        = (⟨some 0, some 1, some 2⟩ : BrowserState)
    ∧ (NavigateTool_execute c3Env
          (NavigateTool_execute c3Env initialBrowserState "https://shop.example/a").2.1
          "https://shop.example/b").2.1
        = (NavigateTool_execute c3Env initialBrowserState "https://shop.example/a").2.1
    ∧ countLaunch (NavigateTool_execute c3Env
          (NavigateTool_execute c3Env initialBrowserState "https://shop.example/a").2.1
          "https://shop.example/b").2.2 = 0 := by
  have h := c3_session_reuse c3Env c3Env "https://shop.example/a"
    "https://shop.example/b" (Or.inl (by decide)) ⟨rfl, rfl, rfl, rfl⟩
  exact ⟨h.1, h.2.1, h.2.2.1, h.2.2.2.1⟩

/-- Navigation oracle on which claim C9 fails: the headless resolver's
launch raises while the shared state is only partially initialized. -/
def c9BadEnv : NavEnv :=
  ⟨⟨false, true, true, "u", true, 0, true, none, true, true, true, "t"⟩,
   true, true, true, true, true, "E"⟩

/-- The partial shared state left by a first call that stored the playwright
handle but failed before creating the page. -/
def c9HalfState : BrowserState := ⟨some 0, none, none⟩

/-- Claim C9 counterexample: in the partial state, a later call whose URL
routes through the headless resolver can propagate the resolver's exception
instead of returning a "Navigation Error" string. -/
theorem c9_counterexample :
    (NavigateTool_execute c9BadEnv c9HalfState "google.com").1
      = Except.error "resolver launch failed" := by
  decide

/-- Claim C9 (amended): once the playwright handle is non-null, no later
`NavigateTool.execute` call performs any initialization event, launches a
browser, or modifies the stored handles; and when the page handle is still
null, every later call that does not itself propagate a headless-resolution
exception returns the "Navigation Error" string for the `None` page — the
session is never repaired. -/
theorem c9_stuck_session (env : NavEnv) (st : BrowserState) (url : String)
    (k : Nat) (hpw : st.playwright = some k) :
    (NavigateTool_execute env st url).2.1 = st
    ∧ (∀ e ∈ (NavigateTool_execute env st url).2.2, isInitEvent e = false)
    ∧ countLaunch (NavigateTool_execute env st url).2.2 = 0
    ∧ (st.page = none →
        (strIn "google.com" (pyUnquote url) = false
          ∨ (env.rEnv.launchOk = true ∧ env.rEnv.newPageOk = true)) →
        (NavigateTool_execute env st url).1
          = Except.ok ("Navigation Error: " ++ noneGotoMsg)) := by
  obtain ⟨hst, hev, _⟩ := nav_no_reinit env st url k hpw
  refine ⟨hst, hev, countLaunch_zero _ hev, ?_⟩
  intro hpage hres
  obtain ⟨c, evs, hc, _⟩ := navClean_safe_full env (pyUnquote url) hres
  simp [NavigateTool_execute, hc, navInit_skip env st k hpw, navGoto, hpage]

/-- All-success navigation oracle for the C9 witness. -/
def c9WitEnv : NavEnv :=
  ⟨⟨true, true, true, "u", true, 0, true, none, true, true, true, "t"⟩,
   true, true, true, true, true, "E"⟩

/-- Witness for C9 (amended) at the concrete partial state. -/
theorem c9_witness :
    (NavigateTool_execute c9WitEnv c9HalfState "https://shop.example/a").2.1
        = c9HalfState
    ∧ countLaunch (NavigateTool_execute c9WitEnv c9HalfState
        "https://shop.example/a").2.2 = 0
    ∧ (NavigateTool_execute c9WitEnv c9HalfState "https://shop.example/a").1
        = Except.ok ("Navigation Error: " ++ noneGotoMsg) := by
  have h := c9_stuck_session c9WitEnv c9HalfState "https://shop.example/a" 0 rfl
  exact ⟨h.1, h.2.2.1, h.2.2.2 rfl (Or.inl (by decide))⟩

/-- Claim C10: `NavigateTool.execute` invokes headless resolution exactly
when the percent-decoded URL contains the substring `"google.com"` anywhere
(pure substring containment); otherwise the decoded URL itself is what the
visible browser is driven to. -/
theorem c10_google_trigger (env : NavEnv) (st : BrowserState) (url : String) :
    (NEvent.resolveCalled (pyUnquote url) ∈ (NavigateTool_execute env st url).2.2
      ↔ strIn "google.com" (pyUnquote url) = true)
    ∧ (strIn "google.com" (pyUnquote url) = false →
        ∀ pg u, NEvent.gotoAttempt pg u ∈ (NavigateTool_execute env st url).2.2 →
          u = pyUnquote url) := by
  by_cases hgt : strIn "google.com" (pyUnquote url) = true
  · refine ⟨⟨fun _ => hgt, fun _ => ?_⟩, fun hf => ?_⟩
    · rcases hr : (resolve_url_headless env.rEnv (pyUnquote url)).1 with e | c
      · have hc : navClean env (pyUnquote url)
            = (Except.error e, [NEvent.resolveCalled (pyUnquote url)]) := by
          simp [navClean, hgt, hr]
        simp [NavigateTool_execute, hc]
      · have hc : navClean env (pyUnquote url)
            = (Except.ok c, [NEvent.resolveCalled (pyUnquote url)]) := by
          simp [navClean, hgt, hr]
        rcases hi : navInit env st with ⟨ri, st2, evs2⟩
        cases ri with
        | error e => simp [NavigateTool_execute, hc, hi]
        | ok _ => simp [NavigateTool_execute, hc, hi]
    · rw [hf] at hgt; exact absurd hgt (by simp)
  · have hgf : strIn "google.com" (pyUnquote url) = false := by
      revert hgt; cases strIn "google.com" (pyUnquote url) <;> simp
    have hc : navClean env (pyUnquote url)
        = (Except.ok (pyUnquote url), []) := by
      simp [navClean, hgf]
    rcases hi : navInit env st with ⟨ri, st2, evs2⟩
    have hie : ∀ e ∈ evs2, isInitEvent e = true := by
      have := navInit_events env st; rw [hi] at this; exact this
    cases ri with
    | error e =>
      have hx : NavigateTool_execute env st url
          = (Except.error e, st2, [] ++ evs2) := by
        simp [NavigateTool_execute, hc, hi]
      refine ⟨?_, ?_⟩
      · rw [hx, hgf]
        simp only [Bool.false_eq_true, iff_false]
        intro hmem
        simp at hmem
        have := hie _ hmem
        simp [isInitEvent] at this
      · intro _ pg u hmem
        rw [hx] at hmem
        simp at hmem
        have := hie _ hmem
        simp [isInitEvent] at this
    | ok _ =>
      have hx : NavigateTool_execute env st url
          = (Except.ok (navGoto env st2 (pyUnquote url)).1, st2,
             [] ++ evs2 ++ (navGoto env st2 (pyUnquote url)).2) := by
        simp [NavigateTool_execute, hc, hi]
      refine ⟨?_, ?_⟩
      · rw [hx, hgf]
        simp only [Bool.false_eq_true, iff_false]
        intro hmem
        simp at hmem
        rcases hmem with hmem | hmem
        · have := hie _ hmem; simp [isInitEvent] at this
        · rcases navGoto_events env st2 (pyUnquote url) _ hmem with ⟨pg, _, heq⟩
          simp at heq
      · intro _ pg u hmem
        rw [hx] at hmem
        simp at hmem
        rcases hmem with hmem | hmem
        · have := hie _ hmem; simp [isInitEvent] at this
        · rcases navGoto_events env st2 (pyUnquote url) _ hmem with ⟨pg2, _, heq⟩
          injection heq with hpg hu

/-- Navigation oracle for the C10 witness. -/
def c10Env : NavEnv :=
  ⟨⟨true, true, true, "https://www.google.com/s", true, 0, true, none,
    true, true, true, "t"⟩,
   true, true, true, true, true, "E"⟩

/-- Witness for C10: a percent-encoded Google URL triggers resolution once
decoded. -/
theorem c10_witness :
    NEvent.resolveCalled (pyUnquote "https%3A%2F%2Fwww.google.com%2Fshopping")
      ∈ (NavigateTool_execute c10Env initialBrowserState
          "https%3A%2F%2Fwww.google.com%2Fshopping").2.2 := by
  have h := c10_google_trigger c10Env initialBrowserState
    "https%3A%2F%2Fwww.google.com%2Fshopping"
  exact h.1.mpr (by decide)

/-- Claim C7: `AddToCartTool.execute` tries the selector patterns in their
fixed priority order, checking visibility for each, force-clicks the first
visible match and stops, reporting success; on a page where only
`button:has-text('Add to Bag')` is visible the match falls on the sixth
selector of the list. -/
theorem c7_selector_priority (env : CartEnv) (st : BrowserState) (pg : Nat)
    (hpg : st.page = some pg)
    (hnr : ∀ s m, env.visibility s ≠ VisOutcome.raised m)
    (hck : env.clickFail = none) :
    (AddToCartTool_execute env st =
      match List.find? (fun s => visB env s) selectors with
      | some sel => (Except.ok "Success: Item added to cart.", st,
          ((selectors.takeWhile (fun s => !visB env s)).map CEvent.checkVisible)
            ++ [CEvent.checkVisible sel, CEvent.clickSel sel])
      | none => (Except.ok cartFailMsg, st, selectors.map CEvent.checkVisible))
    ∧ ((∀ s, env.visibility s
          = if s = addToBagSel then VisOutcome.vis else VisOutcome.notVis) →
        List.find? (fun s => visB env s) selectors = some addToBagSel
        ∧ selectors[5]? = some addToBagSel
        ∧ (AddToCartTool_execute env st).1
            = Except.ok "Success: Item added to cart.") := by
  have hloop := cartLoop_eq env hnr hck selectors
  have hmain : AddToCartTool_execute env st =
      match List.find? (fun s => visB env s) selectors with
      | some sel => (Except.ok "Success: Item added to cart.", st,
          ((selectors.takeWhile (fun s => !visB env s)).map CEvent.checkVisible)
            ++ [CEvent.checkVisible sel, CEvent.clickSel sel])
      | none => (Except.ok cartFailMsg, st, selectors.map CEvent.checkVisible) := by
    cases hf : List.find? (fun s => visB env s) selectors with
    | some sel =>
      rw [hf] at hloop
      simp [AddToCartTool_execute, hpg, hloop]
    | none =>
      rw [hf] at hloop
      simp [AddToCartTool_execute, hpg, hloop]
  refine ⟨hmain, ?_⟩
  intro hv
  have hfun : (fun s => visB env s) = (fun s => decide (s = addToBagSel)) := by
    funext s
    by_cases h : s = addToBagSel <;> simp [visB, hv, h]
  have hfind : List.find? (fun s => visB env s) selectors = some addToBagSel := by
    rw [hfun]; decide
  refine ⟨hfind, by decide, ?_⟩
  rw [hmain, hfind]

/-- Cart oracle of the C7 scenario: only the Add-to-Bag button is visible. -/
def bagOnlyEnv : CartEnv :=
  ⟨fun s => if s = addToBagSel then VisOutcome.vis else VisOutcome.notVis, none⟩

/-- A fully initialized shared state for the C7 witness. -/
def c7FullState : BrowserState := ⟨some 0, some 1, some 2⟩

/-- Witness for C7: the Add-to-Bag-only page matches on the sixth selector
and the tool reports success. -/
theorem c7_witness :
    List.find? (fun s => visB bagOnlyEnv s) selectors = some addToBagSel
    ∧ selectors[5]? = some addToBagSel
    ∧ (AddToCartTool_execute bagOnlyEnv c7FullState).1
        = Except.ok "Success: Item added to cart." := by
  have h := c7_selector_priority bagOnlyEnv c7FullState 2 rfl
    (fun s m => by by_cases hs : s = addToBagSel <;> simp [bagOnlyEnv, hs]) rfl
  exact h.2 (fun s => rfl)
